import Mathlib

/-!
Shallow embedding of the Zenyx BETA Telegram bot (Python sources under
`src/Zenyx BETA/`): the user/balance repository (`models/user.py`), the
validation helpers (`utils/helpers.py`), and the conversational handlers
(`handlers/bot_handler.py`, `handlers/menu_handler.py`,
`handlers/channel_handler.py`, `handlers/payment_handler.py`).

Monetary values and timestamps are modelled as rationals; Python dicts used
as tables are modelled as association lists with distinct keys; a handler
that can raise an uncaught Python exception returns an `Option`, with `none`
standing for the exception propagating out of the handler (state mutations
performed before the raise are kept, as they are in the running process).
-/

namespace Zenyx

/-- Python `hasattr(obj, name)` where `obj` is a plain `dict`
(`context.bot_data` in python-telegram-bot): a dict stores keys, not
attributes, so the attribute lookup fails and `hasattr` is `False`
for every table name the handlers ask about. -/
def hasattrDict (_name : String) : Bool := false

/-- Python `getattr(obj, name, default)` where `obj` is a plain `dict`:
the attribute is absent, so the `default` is returned
(`payment_handler.py` line 154). -/
def getattrDict {α : Type} (_name : String) (default : α) : α := default

/-- Numeric value of a list of ASCII digit characters, most significant
first (helper for the models of Python `int()` / `float()`). -/
def decVal (cs : List Char) : Nat :=
  cs.foldl (fun n c => 10 * n + (c.toNat - 48)) 0

/-- Python `s.startswith(pre)`, modelled at the character level. -/
def pyStartswith (s pre : String) : Bool :=
  pre.toList.isPrefixOf s.toList

/-- Python `s.split(sep)` for a one-character separator, modelled at the
character level. -/
def pySplit (s : String) (sep : Char) : List String :=
  (s.toList.splitOn sep).map (fun cs => String.mk cs)

/-- Python `s.replace(a, b)` for one-character patterns, modelled at the
character level. -/
def pyReplaceChar (s : String) (a b : Char) : String :=
  String.mk (s.toList.map (fun c => if c = a then b else c))

/-- Model of Python `int(s)` restricted to plain integer literals:
an optional sign followed by ASCII digits.  (Surrounding whitespace,
underscores between digits and non-ASCII digits are outside the modelled
fragment; every call site in the sources passes strings of this shape.)
`none` models `int` raising `ValueError`. -/
def pyInt (s : String) : Option Int :=
  let cs := s.toList
  let p : Bool × List Char :=
    match cs with
    | '-' :: r => (true, r)
    | '+' :: r => (false, r)
    | r => (false, r)
  let neg := p.1
  let ds := p.2
  if ds ≠ [] ∧ ds.all Char.isDigit then
    some ((if neg then -1 else 1) * (decVal ds : Int))
  else none

/-- Model of Python `float(s)` restricted to plain decimal literals: an
optional sign, then digits with at most one dot (`d+`, `d+.d*` or `.d+`).
Surrounding whitespace, exponents, `inf`/`nan` and underscore separators
are outside the modelled fragment; the value is kept exact as a rational.
`none` models `float` raising `ValueError`. -/
def pyFloatParse (s : String) : Option (Bool × Nat × Nat × Nat) :=
  let cs := s.toList
  let p : Bool × List Char :=
    match cs with
    | '-' :: r => (true, r)
    | '+' :: r => (false, r)
    | r => (false, r)
  match p.2.splitOn '.' with
  | [a] =>
      if a ≠ [] ∧ a.all Char.isDigit then some (p.1, decVal a, 0, 0) else none
  | [a, b] =>
      if (a ≠ [] ∨ b ≠ []) ∧ a.all Char.isDigit ∧ b.all Char.isDigit then
        some (p.1, decVal a, decVal b, b.length)
      else none
  | _ => none

/-- The rational value of a parsed literal `(neg, intpart, fracpart,
fraclen)`. -/
def pyFloatVal (t : Bool × Nat × Nat × Nat) : ℚ :=
  (if t.1 then (-1 : ℚ) else 1) *
    ((t.2.1 : ℚ) + (t.2.2.1 : ℚ) / (10 : ℚ) ^ t.2.2.2)

/-- Function `pyFloat` itself: parse, then evaluate. -/
def pyFloat (s : String) : Option ℚ :=
  (pyFloatParse s).map pyFloatVal

/-! ## `models/user.py`: the User entity and the balance/ledger operations

The relational store is modelled transactionally: `staged` is the state the
open connection sees (`cursor.execute` writes there), `committed` is what is
durable; `conn.commit()` publishes `staged`, `conn.rollback()` discards it.
The two `fail…` flags are the oracle for whether a given `cursor.execute`
raises `MySQLError` (the "store rejects the write" cases). -/

/-- A persisted row of the `users` table. -/
structure UserRow where
  id : Nat
  telegram_id : Int
  username : Option String
  first_name : Option String
  last_name : Option String
  is_admin : Bool
  is_vip : Bool
  vip_until : Option ℚ
  balance : ℚ
deriving Repr, DecidableEq

/-- A persisted row of the `transactions` ledger table
(`INSERT INTO transactions` in `User.add_balance`). -/
structure TxRow where
  user_id : Int
  amount : ℚ
  type : String
  status : String
  reference_id : Option String
  description : Option String
deriving Repr, DecidableEq

/-- The relational store relevant to the balance operations. -/
structure DB where
  users : List UserRow
  transactions : List TxRow
deriving Repr, DecidableEq

/-- A MySQL connection: committed state, staged (uncommitted) state, and
the failure oracle for the two kinds of writes `add_balance`/`save` issue. -/
structure Conn where
  committed : DB
  staged : DB
  failTxInsert : Bool
  failUserWrite : Bool
deriving Repr, DecidableEq

/-- Operation `conn.commit()`: the staged writes become durable. -/
def Conn.commit (c : Conn) : Conn := { c with committed := c.staged }

/-- Operation `conn.rollback()`: the staged writes are discarded. -/
def Conn.rollback (c : Conn) : Conn := { c with staged := c.committed }

/-- The in-memory `User` object (`models/user.py` lines 19-30).
`id` is `none` until the row has been inserted. -/
structure User where
  id : Option Nat
  telegram_id : Int
  username : Option String
  first_name : Option String
  last_name : Option String
  is_admin : Bool
  is_vip : Bool
  vip_until : Option ℚ
  balance : ℚ
deriving Repr, DecidableEq

/-- Embedding of `User.save` (`models/user.py` lines 77-135): INSERT when `self.id is
None`, otherwise UPDATE of the listed columns; on `MySQLError` the
connection is rolled back and `False` is returned, otherwise the
transaction is committed and `True` returned.  The returned `User` carries
the `lastrowid` assignment done in the insert branch. -/
def User.save (self : User) (conn : Conn) : Conn × User × Bool :=
  match self.id with
  | none =>
      if conn.failUserWrite then (conn.rollback, self, false)
      else
        let newId := conn.staged.users.length + 1
        let row : UserRow :=
          { id := newId, telegram_id := self.telegram_id,
            username := self.username, first_name := self.first_name,
            last_name := self.last_name, is_admin := self.is_admin,
            is_vip := self.is_vip, vip_until := self.vip_until,
            balance := self.balance }
        let conn :=
          { conn with staged := { conn.staged with users := conn.staged.users ++ [row] } }
        (conn.commit, { self with id := some newId }, true)
  | some i =>
      if conn.failUserWrite then (conn.rollback, self, false)
      else
        let conn :=
          { conn with staged :=
              { conn.staged with users := conn.staged.users.map (fun (r : UserRow) =>
                  if r.id = i then
                    { r with username := self.username,
                             first_name := self.first_name,
                             last_name := self.last_name,
                             is_admin := self.is_admin,
                             is_vip := self.is_vip,
                             vip_until := self.vip_until,
                             balance := self.balance }
                  else r) } }
        (conn.commit, self, true)

/-- Result of `add_balance`/`remove_balance`: the new ledger row id on the
success path, `failed` for the Python `return False`. -/
inductive BalanceResult where
  | ok (transaction_id : Nat)
  | failed
deriving Repr, DecidableEq

/-- Embedding of `User.add_balance` (`models/user.py` lines 154-190).  The in-memory
`self.balance += amount` happens first; then the ledger INSERT (which may
raise, caught as `MySQLError` → `conn.rollback(); return False`); then
`self.save(conn)` whose boolean result is ignored; then `conn.commit()`
and the new row id is returned. -/
def User.add_balance (self : User) (conn : Conn) (amount : ℚ)
    (transaction_type : String) (reference_id : Option String)
    (description : Option String) : Conn × User × BalanceResult :=
  let self := { self with balance := self.balance + amount }
  if conn.failTxInsert then
    (conn.rollback, self, .failed)
  else
    let row : TxRow :=
      { user_id := self.telegram_id, amount := amount,
        type := transaction_type, status := "completed",
        reference_id := reference_id, description := description }
    let conn :=
      { conn with staged := { conn.staged with transactions := conn.staged.transactions ++ [row] } }
    let transaction_id := conn.staged.transactions.length
    let r : Conn × User × Bool := User.save self conn
    (r.1.commit, r.2.1, .ok transaction_id)

/-- Embedding of `User.remove_balance` (`models/user.py` lines 192-197): guard
`self.balance < amount → return False`, otherwise delegate to
`add_balance` with the negated amount. -/
def User.remove_balance (self : User) (conn : Conn) (amount : ℚ)
    (transaction_type : String) (reference_id : Option String)
    (description : Option String) : Conn × User × BalanceResult :=
  if self.balance < amount then (conn, self, .failed)
  else self.add_balance conn (-amount) transaction_type reference_id description

/-! ## Session state, ephemeral tables and replies

`context.user_data` is a per-user dict; the keys the embedded handlers touch
become optional fields.  `context.bot_data` is a process-global dict holding
the two ad-hoc tables `codigos_validacao` and `pagamentos`. -/

/-- The in-progress plan dict `context.user_data['new_plan']`: keys appear
one at a time as the flow advances, so every field is optional.  Entries
created by the plan flow never carry an `id` key (`payment_handler.py`
reads it with `p.get('id', 0)`). -/
structure NewPlan where
  id : Option Int
  nome : Option String
  preco : Option ℚ
  duracao : Option Int
deriving Repr, DecidableEq

/-- A `new_plan` dict fresh from `adicionar_plano` (`{}`). -/
def emptyNewPlan : NewPlan :=
  { id := none, nome := none, preco := none, duracao := none }

/-- The per-user session dict `context.user_data`, restricted to the keys
the embedded handlers read or write. -/
structure UserData where
  waiting_for : Option String
  new_plan : Option NewPlan
  planos : List NewPlan
  bot_username : Option String
  bot_id : Option Int
deriving Repr, DecidableEq

/-- A value of the `codigos_validacao` table: the dict stored per validation
code by `gerar_codigo_canal`. -/
structure CodeInfo where
  user_id : Int
  bot_id : Int
  expira : ℚ
deriving Repr, DecidableEq

/-- A value of the `pagamentos` table: the dict stored per transaction id by
`processar_pagamento`. -/
structure Pagamento where
  user_id : Int
  plano_id : Int
  valor : ℚ
  status : String
  created_at : ℚ
deriving Repr, DecidableEq

/-- The process-global dict `context.bot_data`, restricted to the two
ad-hoc tables the handlers use.  Both dicts are modelled as association
lists with pairwise-distinct keys. -/
structure BotData where
  codigos_validacao : List (String × CodeInfo)
  pagamentos : List (String × Pagamento)
deriving Repr, DecidableEq

/-- The chat a channel message arrives in (`message.chat`). -/
structure ChatInfo where
  id : Int
  title : String
  type : String
deriving Repr, DecidableEq

/-- A persisted managed bot (`models/managed_bot.py` lines 21-28), used to
state that the token flow performs no write to the `managed_bots` table. -/
structure ManagedBot where
  owner_id : Int
  bot_token : String
  bot_username : Option String
deriving Repr, DecidableEq

/-- The messages a handler sends or edits, identified by which source
message they are (payloads keep the data interpolated into the text). -/
inductive Reply where
  | invalidToken
  | processingBot
  | botSuccess (username : String)
  | askPlanPrice
  | invalidPrice
  | askPlanDuration
  | planoAdicionado (nome : String) (preco : ℚ) (duracao : Int)
  | planosScreen (planos : List NewPlan)
  | addPlanPrompt
  | menuScreen
  | createBotInstructions
  | planoInvalido
  | processandoPagamento
  | pixGerado (transaction_id : String)
  | pagamentoNaoEncontrado
  | pagamentoAprovado
  | ownerNotify (user_id : Int) (chat_title : String)
  | channelLinked
deriving Repr, DecidableEq

/-! ## `utils/helpers.py`: the bot-token validator -/

/-- The character class `[A-Za-z0-9_-]` of the token pattern. -/
def tokenClassChar (c : Char) : Bool :=
  c.isUpper || c.isLower || c.isDigit || c = '_' || c = '-'

/-- One full-anchored match of `\d+:[A-Za-z0-9_-]{35}` against a character
list (`\d` modelled as the ASCII digits). -/
def matchTok (cs : List Char) : Bool :=
  let ds := cs.takeWhile Char.isDigit
  match cs.dropWhile Char.isDigit with
  | ':' :: suffix => !ds.isEmpty && suffix.length == 35 && suffix.all tokenClassChar
  | _ => false

/-- Embedding of `is_valid_bot_token` (`utils/helpers.py` lines 33-44):
`re.match(r'^\d+:[A-Za-z0-9_-]{35}$', token)`.  In Python `re`, `$` matches
at the end of the string or just before one final newline, so a candidate
with a single trailing `'\n'` is also accepted.
`handlers/bot_handler.py` lines 34-35 inline the same pattern. -/
def is_valid_bot_token (token : String) : Bool :=
  let cs := token.toList
  matchTok cs || ((cs.getLast? == some '\n') && matchTok cs.dropLast)

/-- The token format as the spec words it: digits, a colon, then exactly 35
characters of `[A-Za-z0-9_-]`. -/
def tokenChars (cs : List Char) : Prop :=
  ∃ ds suffix : List Char, cs = ds ++ ':' :: suffix ∧ ds ≠ [] ∧
    (∀ c ∈ ds, c.isDigit = true) ∧ suffix.length = 35 ∧
    (∀ c ∈ suffix, tokenClassChar c = true)

/-- The spec's token format, on strings. -/
def specTokenFormat (s : String) : Prop := tokenChars s.toList

/-! ## `handlers/menu_handler.py` -/

/-- Embedding of `menu_callback` (lines 15-39): renders the main menu; touches no
session state. -/
def menu_callback (ud : UserData) : UserData × List Reply :=
  (ud, [.menuScreen])

/-- Embedding of `criar_bot_callback` (lines 41-69): shows the token instructions and
sets `waiting_for = 'bot_token'`. -/
def criar_bot_callback (ud : UserData) : UserData × List Reply :=
  ({ ud with waiting_for := some "bot_token" }, [.createBotInstructions])

/-! ## `handlers/bot_handler.py` -/

/-- Embedding of `verificar_token_bot` (lines 21-88).  Guard: return silently unless
`waiting_for == 'bot_token'`.  Then the tag is popped *before* the format
check; an invalid token re-prompts, a valid one shows the processing and
success screens with the simulated username `"SeuBot"`.  No write to the
`managed_bots` store is performed (the save is a comment, lines 60-61), so
the store is passed through unchanged. -/
def verificar_token_bot (ud : UserData) (bots : List ManagedBot) (text : String) :
    UserData × List ManagedBot × List Reply :=
  if !(ud.waiting_for == some "bot_token") then (ud, bots, [])
  else
    let ud := { ud with waiting_for := none }
    if !(is_valid_bot_token text) then (ud, bots, [.invalidToken])
    else (ud, bots, [.processingBot, .botSuccess "SeuBot"])

/-- Embedding of `configurar_planos` (lines 198-231): renders the configured plans with
the add-plan button; reads `user_data['planos']` but writes nothing. -/
def configurar_planos (ud : UserData) : UserData × List Reply :=
  (ud, [.planosScreen ud.planos])

/-- Embedding of `adicionar_plano` (lines 233-256): prompts for the plan name, sets
`waiting_for = 'plan_name'` and `new_plan = {}`. -/
def adicionar_plano (ud : UserData) : UserData × List Reply :=
  ({ ud with waiting_for := some "plan_name", new_plan := some emptyNewPlan },
   [.addPlanPrompt])

/-- Embedding of `processar_nome_plano` (lines 258-276).  Guard: no-op unless
`waiting_for == 'plan_name'`.  `user_data['new_plan']['nome'] = text`
raises `KeyError` (modelled as `none`) when `new_plan` is absent;
otherwise the name is stored and the state advances to `'plan_price'`. -/
def processar_nome_plano (ud : UserData) (text : String) :
    Option (UserData × List Reply) :=
  if !(ud.waiting_for == some "plan_name") then some (ud, [])
  else
    match ud.new_plan with
    | none => none
    | some np =>
        some ({ ud with new_plan := some { np with nome := some text },
                        waiting_for := some "plan_price" },
              [.askPlanPrice])

/-- Embedding of `processar_preco_plano` (lines 278-327).  Guard: no-op unless
`waiting_for == 'plan_price'`.  `float(text.replace(',', '.'))` with a
`preco <= 0` re-raise, both caught as `ValueError` → re-prompt with the
state untouched; on success the price is stored in `new_plan` (a missing
`new_plan` raises `KeyError`, modelled as `none`) and the state advances
to `'plan_duration'`. -/
def processar_preco_plano (ud : UserData) (text : String) :
    Option (UserData × List Reply) :=
  if !(ud.waiting_for == some "plan_price") then some (ud, [])
  else
    match pyFloat (pyReplaceChar text ',' '.') with
    | none => some (ud, [.invalidPrice])
    | some preco =>
        if preco ≤ 0 then some (ud, [.invalidPrice])
        else
          match ud.new_plan with
          | none => none
          | some np =>
              some ({ ud with new_plan := some { np with preco := some preco },
                              waiting_for := some "plan_duration" },
                    [.askPlanDuration])

/-- Embedding of `processar_duracao_plano` (lines 329-380): on a `plan_duration_<n>`
button, parse the duration (`int` on the last `_`-segment), store it in
`new_plan`, append `new_plan` to `user_data['planos']`, show the success
screen and pop both `waiting_for` and `new_plan`.  Missing `new_plan`,
`nome` or `preco` keys raise `KeyError` (modelled as `none`). -/
def processar_duracao_plano (ud : UserData) (data : String) :
    Option (UserData × List Reply) :=
  if !(pyStartswith data "plan_duration_") then some (ud, [])
  else
    match pyInt ((pySplit data '_').getLastD "") with
    | none => none
    | some duracao =>
        match ud.new_plan with
        | none => none
        | some np =>
            let np := { np with duracao := some duracao }
            match np.nome, np.preco with
            | some nome, some preco =>
                some ({ ud with planos := ud.planos ++ [np],
                                waiting_for := none, new_plan := none },
                      [.planoAdicionado nome preco duracao])
            | _, _ => none

/-- Embedding of `gerar_codigo_canal` (lines 408-446).  `hasattr` on the dict-like
`bot_data` is always `False`, so `bot_data['codigos_validacao']` is
unconditionally replaced by a fresh empty dict.  Building the new entry
then evaluates `time.time()` — but `bot_handler.py` never imports `time`,
so a `NameError` is raised (modelled as the `none` outcome): the new code
is never stored and no reply is sent.  The generated code and the caller's
id are passed in as the random/environment inputs. -/
def gerar_codigo_canal (bd : BotData) (_ud : UserData) (_user_id : Int)
    (_codigo : String) : BotData × Option (List Reply) :=
  let bd := { bd with codigos_validacao := [] }
  (bd, none)

/-! ## `handlers/channel_handler.py` -/

/-- The `for codigo, info in list(codigos_validacao.items())` loop of
`validar_codigo_canal` (lines 84-119), iterating over a snapshot while
popping from the live table: an expired match is popped and the loop
continues; an unexpired match notifies the owner, pops the code and
confirms in the chat; no match falls through silently.  The database save
of the link is only a comment in the source (lines 102-103), so no
`ManagedGroup` write appears here. -/
def redeemLoop (now : ℚ) (chat : ChatInfo) (text : String) :
    List (String × CodeInfo) → BotData → BotData × List Reply
  | [], bd => (bd, [])
  | (codigo, info) :: rest, bd =>
      if codigo = text then
        if now > info.expira then
          redeemLoop now chat text rest
            { bd with codigos_validacao :=
                bd.codigos_validacao.filter (fun p => p.1 ≠ codigo) }
        else
          ({ bd with codigos_validacao :=
               bd.codigos_validacao.filter (fun p => p.1 ≠ codigo) },
           [.ownerNotify info.user_id chat.title, .channelLinked])
      else redeemLoop now chat text rest bd

/-- Embedding of `validar_codigo_canal` (lines 73-119).  The guard
`if not hasattr(context.bot_data, 'codigos_validacao'): return` tests an
*attribute* of the dict-like `bot_data`, which never exists, so the guard
always fires and the handler returns before looking at any code; the
redemption loop below it is dead code (embedded above for fidelity). -/
def validar_codigo_canal (now : ℚ) (bd : BotData) (chat : ChatInfo)
    (text : String) : BotData × List Reply :=
  if !(hasattrDict "codigos_validacao") then (bd, [])
  else redeemLoop now chat text bd.codigos_validacao bd

/-! ## `handlers/payment_handler.py` -/

/-- Embedding of `processar_pagamento` (lines 26-138): on a `pagar_<id>` button, parse
the plan id (failure → error reply), look the plan up in
`user_data['planos']` by `p.get('id', 0)` falling back to the hard-coded
demo plan, build `transaction_id = f"TX{int(time.time())}"`
(`payment_handler.py` does import `time`), send the QR-code screen, and
store the pending payment — after the `hasattr` guard (always `False`)
has replaced the whole `pagamentos` table by a fresh dict.  A plan dict
missing the `nome`/`preco`/`duracao` keys would raise `KeyError` in the
message templates (modelled as `none`). -/
def processar_pagamento (now : ℚ) (ud : UserData) (bd : BotData)
    (user_id : Int) (data : String) : Option (BotData × List Reply) :=
  if !(pyStartswith data "pagar_") then some (bd, [])
  else
    match pyInt ((pySplit data '_').getD 1 "") with
    | none => some (bd, [.planoInvalido])
    | some plano_id =>
        let plano := (ud.planos.find? (fun p => p.id.getD 0 == plano_id)).getD
          { id := some plano_id, nome := some "Plano Teste",
            preco := some (199 / 10 : ℚ), duracao := some 30 }
        match plano.nome, plano.preco, plano.duracao with
        | some _, some valor, some _ =>
            let transaction_id := "TX" ++ toString (⌊now⌋ : Int)
            let bd := { bd with pagamentos :=
              [(transaction_id,
                { user_id := user_id, plano_id := plano_id, valor := valor,
                  status := "pending", created_at := now })] }
            some (bd, [.processandoPagamento, .pixGerado transaction_id])
        | _, _, _ => none

/-- Embedding of `verificar_pagamento` (lines 140-195): on a `check_payment_<tid>`
button, the payment table is read with
`getattr(context.bot_data, 'pagamentos', {})` — *attribute* access on the
dict-like `bot_data`, which always yields the default empty dict — so the
lookup never finds the payment and the handler reports "not found"
without touching `bot_data`.  The approval branch below the lookup (which
would only mutate that local empty dict) is unreachable. -/
def verificar_pagamento (bd : BotData) (data : String) : BotData × List Reply :=
  if !(pyStartswith data "check_payment_") then (bd, [])
  else
    let transaction_id := (pySplit data '_').getD 2 ""
    let pagamentos : List (String × Pagamento) := getattrDict "pagamentos" []
    match pagamentos.find? (fun p => p.1 == transaction_id) with
    | none => (bd, [.pagamentoNaoEncontrado])
    | some _ => (bd, [.pagamentoAprovado])

/-! ## Concrete fixtures used by witnesses and counterexamples -/

/-- A persisted user row with balance 10. -/
def row₀ : UserRow :=
  { id := 1, telegram_id := 100, username := some "alice",
    first_name := some "Alice", last_name := none, is_admin := false,
    is_vip := false, vip_until := none, balance := 10 }

/-- A store holding just that user and an empty ledger. -/
def db₀ : DB := { users := [row₀], transactions := [] }

/-- A healthy connection at rest (nothing staged, no write fails). -/
def conn₀ : Conn :=
  { committed := db₀, staged := db₀, failTxInsert := false, failUserWrite := false }

/-- A connection whose next ledger INSERT raises `MySQLError`. -/
def connF : Conn :=
  { committed := db₀, staged := db₀, failTxInsert := true, failUserWrite := false }

/-- The in-memory `User` for that row: balance 10. -/
def u₀ : User :=
  { id := some 1, telegram_id := 100, username := some "alice",
    first_name := some "Alice", last_name := none, is_admin := false,
    is_vip := false, vip_until := none, balance := 10 }

/-! ## C1 / C2: the balance operations -/

/-- C1: for every user and amount, `remove_balance` fails and leaves the
user (and the connection) unchanged when `amount > balance`; when
`amount ≤ balance` and the store accepts both writes, the result is the
new ledger row id, the balance decreases by exactly `amount`, and exactly
one new `transactions` row for that user is committed. -/
theorem remove_balance_spec (conn : Conn) (u : User) (amount : ℚ)
    (t : String) (r : Option String) (d : Option String)
    (hsync : conn.staged = conn.committed)
    (h1 : conn.failTxInsert = false) (h2 : conn.failUserWrite = false) :
    (u.balance < amount →
      u.remove_balance conn amount t r d = (conn, u, .failed)) ∧
    (amount ≤ u.balance →
      (∃ tid : Nat, (u.remove_balance conn amount t r d).2.2 = .ok tid) ∧
      (u.remove_balance conn amount t r d).2.1.balance = u.balance - amount ∧
      (u.remove_balance conn amount t r d).1.committed.transactions =
        conn.committed.transactions ++
          [{ user_id := u.telegram_id, amount := -amount, type := t,
             status := "completed", reference_id := r, description := d }]) := by
  constructor
  · intro h
    simp [User.remove_balance, h]
  · intro h
    have hlt : ¬ u.balance < amount := not_lt.mpr h
    cases hid : u.id with
    | none =>
        refine ⟨⟨conn.staged.transactions.length + 1, ?_⟩, ?_, ?_⟩ <;>
          simp [User.remove_balance, User.add_balance, User.save, hlt, h1, h2,
                hid, Conn.commit, hsync, sub_eq_add_neg]
    | some i =>
        refine ⟨⟨conn.staged.transactions.length + 1, ?_⟩, ?_, ?_⟩ <;>
          simp [User.remove_balance, User.add_balance, User.save, hlt, h1, h2,
                hid, Conn.commit, hsync, sub_eq_add_neg]

/-- Witness for C1 at balance 10, amount 4: the preconditions hold and the
debit succeeds with the stated effects. -/
theorem remove_balance_spec_witness :
    (4 : ℚ) ≤ u₀.balance ∧
    ((∃ tid : Nat, (u₀.remove_balance conn₀ 4 "withdrawal" none none).2.2 = .ok tid) ∧
     (u₀.remove_balance conn₀ 4 "withdrawal" none none).2.1.balance = u₀.balance - 4 ∧
     (u₀.remove_balance conn₀ 4 "withdrawal" none none).1.committed.transactions =
       conn₀.committed.transactions ++
         [{ user_id := u₀.telegram_id, amount := -4, type := "withdrawal",
            status := "completed", reference_id := none, description := none }]) :=
  ⟨by norm_num [u₀],
   (remove_balance_spec conn₀ u₀ 4 "withdrawal" none none rfl rfl rfl).2
     (by norm_num [u₀])⟩

/-- C2 (the code bug): when the ledger INSERT raises, `add_balance`
reports failure and rolls the *database* back, but the caller's in-memory
`self.balance` keeps the already-applied increment (10 + 5 = 15 instead of
being restored to 10). -/
theorem add_balance_failure_keeps_inflated_balance :
    (u₀.add_balance connF 5 "deposit" none none).2.2 = BalanceResult.failed ∧
    (u₀.add_balance connF 5 "deposit" none none).1.committed = connF.committed ∧
    (u₀.add_balance connF 5 "deposit" none none).2.1.balance = 15 := by
  refine ⟨by decide, by decide, ?_⟩
  show u₀.balance + 5 = 15
  norm_num [u₀]

/-! ## C3 / C5 / C8: the conversational state machine -/

/-- An idle session: no pending tag, no scratch entity. -/
def udIdle : UserData :=
  { waiting_for := none, new_plan := none, planos := [],
    bot_username := none, bot_id := none }

/-- A session waiting for a bot token. -/
def udTok : UserData :=
  { waiting_for := some "bot_token", new_plan := none, planos := [],
    bot_username := none, bot_id := none }

/-- A session in the middle of the add-plan flow, as `adicionar_plano`
leaves it: tag `plan_name`, scratch `new_plan = {}`. -/
def udMid : UserData :=
  { waiting_for := some "plan_name", new_plan := some emptyNewPlan,
    planos := [], bot_username := none, bot_id := none }

/-- A syntactically well-formed bot token: 9 digits, a colon, 35 pattern
characters. -/
def validTok : String := "123456789:AAAAABBBBBCCCCCDDDDDEEEEEFFFFFGGGGG"

/-- C3 counterexample: with `waiting_for = bot_token` and the invalid
input `"abc"`, the handler does re-prompt, but the session does *not* stay
in `bot_token` — the tag was popped before validation; and on the valid
input no `ManagedBot` is persisted (the store stays empty). -/
theorem token_flow_counterexample :
    (verificar_token_bot udTok [] "abc").2.2 = [.invalidToken] ∧
    (verificar_token_bot udTok [] "abc").1.waiting_for = none ∧
    is_valid_bot_token validTok = true ∧
    (verificar_token_bot udTok [] validTok).2.1 = ([] : List ManagedBot) := by
  refine ⟨by decide, by decide, by decide, by decide⟩

/-- C3 as the code has it: whenever the tag is `bot_token`, running the
handler on any text clears the tag (to `none`), performs no write to the
`managed_bots` store, re-prompts on an invalid token and shows the
simulated success screens on a valid one. -/
theorem verificar_token_bot_spec (ud : UserData) (bots : List ManagedBot)
    (text : String) (h : ud.waiting_for = some "bot_token") :
    (verificar_token_bot ud bots text).1.waiting_for = none ∧
    (verificar_token_bot ud bots text).2.1 = bots ∧
    (is_valid_bot_token text = false →
      (verificar_token_bot ud bots text).2.2 = [.invalidToken]) ∧
    (is_valid_bot_token text = true →
      (verificar_token_bot ud bots text).2.2 =
        [.processingBot, .botSuccess "SeuBot"]) := by
  cases hv : is_valid_bot_token text <;>
    simp [verificar_token_bot, h, hv]

/-- Witness for C3 (amended): the hypothesis holds at `udTok` and the
conclusion follows for the input `"abc"`. -/
theorem verificar_token_bot_spec_witness :
    (verificar_token_bot udTok [] "abc").1.waiting_for = none ∧
    (verificar_token_bot udTok [] "abc").2.1 = ([] : List ManagedBot) ∧
    (is_valid_bot_token "abc" = false →
      (verificar_token_bot udTok [] "abc").2.2 = [.invalidToken]) ∧
    (is_valid_bot_token "abc" = true →
      (verificar_token_bot udTok [] "abc").2.2 =
        [.processingBot, .botSuccess "SeuBot"]) :=
  verificar_token_bot_spec udTok [] "abc" rfl

/-- C5: each free-text handler is a strict no-op pass-through — no reply,
no state change — whenever the session's `waiting_for` tag differs from
the handler's expected tag. -/
theorem freetext_handlers_noop (ud : UserData) (bots : List ManagedBot)
    (text : String) :
    (ud.waiting_for ≠ some "bot_token" →
      verificar_token_bot ud bots text = (ud, bots, [])) ∧
    (ud.waiting_for ≠ some "plan_name" →
      processar_nome_plano ud text = some (ud, [])) ∧
    (ud.waiting_for ≠ some "plan_price" →
      processar_preco_plano ud text = some (ud, [])) := by
  refine ⟨fun h => ?_, fun h => ?_, fun h => ?_⟩ <;>
    simp [verificar_token_bot, processar_nome_plano, processar_preco_plano, h]

/-- Witness for C5: an idle session (tag absent) is passed through
unchanged by all three handlers. -/
theorem freetext_handlers_noop_witness :
    verificar_token_bot udIdle [] "oi" = (udIdle, [], []) ∧
    processar_nome_plano udIdle "oi" = some (udIdle, []) ∧
    processar_preco_plano udIdle "oi" = some (udIdle, []) :=
  ⟨(freetext_handlers_noop udIdle [] "oi").1 (by decide),
   (freetext_handlers_noop udIdle [] "oi").2.1 (by decide),
   (freetext_handlers_noop udIdle [] "oi").2.2 (by decide)⟩

/-- C8 counterexample: in the middle of the add-plan flow (tag
`plan_name`, scratch `new_plan = {}`), pressing the flow's cancel button —
whose target is `configurar_planos` — leaves both the tag and the scratch
entity in place instead of clearing them. -/
theorem cancel_counterexample :
    (configurar_planos udMid).1.waiting_for = some "plan_name" ∧
    (configurar_planos udMid).1.new_plan = some emptyNewPlan := by
  refine ⟨by decide, by decide⟩

/-- C8 as the code has it: the back/cancel navigation targets
(`configurar_planos`, `menu_callback`) leave the session state entirely
unchanged — they clear neither `waiting_for` nor `new_plan`; only the
successful completion step `processar_duracao_plano` removes both. -/
theorem back_actions_preserve_session (ud : UserData) :
    (configurar_planos ud).1 = ud ∧
    (menu_callback ud).1 = ud ∧
    (∀ np nome preco, ud.new_plan = some np → np.nome = some nome →
      np.preco = some preco →
      processar_duracao_plano ud "plan_duration_30" =
        some ({ ud with planos := ud.planos ++ [{ np with duracao := some 30 }],
                        waiting_for := none, new_plan := none },
              [.planoAdicionado nome preco 30])) := by
  refine ⟨rfl, rfl, ?_⟩
  intro np nome preco h1 h2 h3
  have hs : pyStartswith "plan_duration_30" "plan_duration_" = true := by decide
  have hd : pyInt ((pySplit "plan_duration_30" '_').getLast?.getD "") = some 30 := by
    decide
  simp [processar_duracao_plano, hs, hd, h1, h2, h3]

/-- A session at the duration step with a complete scratch plan. -/
def udPlan : UserData :=
  { waiting_for := some "plan_duration",
    new_plan := some { id := none, nome := some "Mensal",
                       preco := some (199 / 10 : ℚ), duracao := none },
    planos := [], bot_username := none, bot_id := none }

/-- Witness for C8 (amended): at `udPlan`, the cancel targets preserve the
session and the completion step clears tag and scratch while persisting
the plan `{Mensal, 19.90, 30}`. -/
theorem back_actions_preserve_session_witness :
    (configurar_planos udPlan).1 = udPlan ∧
    processar_duracao_plano udPlan "plan_duration_30" =
      some ({ udPlan with
                planos := udPlan.planos ++
                  [{ id := none, nome := some "Mensal",
                     preco := some (199 / 10 : ℚ), duracao := some 30 }],
                waiting_for := none, new_plan := none },
            [.planoAdicionado "Mensal" (199 / 10 : ℚ) 30]) :=
  ⟨(back_actions_preserve_session udPlan).1,
   (back_actions_preserve_session udPlan).2.2
     { id := none, nome := some "Mensal", preco := some (199 / 10 : ℚ),
       duracao := none } "Mensal" (199 / 10 : ℚ) rfl rfl rfl⟩

/-! ## C4 / C9 / C10: the ad-hoc `bot_data` tables -/

/-- A `bot_data` holding one stored validation code that expires at
time 1000. -/
def bdCode : BotData :=
  { codigos_validacao := [("ABC12345", { user_id := 7, bot_id := 0, expira := 1000 })],
    pagamentos := [] }

/-- A `bot_data` holding two previously issued validation codes
(different owners). -/
def bdCodes2 : BotData :=
  { codigos_validacao :=
      [("OLDCODE1", { user_id := 1, bot_id := 0, expira := 500 }),
       ("OLDCODE2", { user_id := 2, bot_id := 0, expira := 600 })],
    pagamentos := [] }

/-- An empty `bot_data`. -/
def bdEmpty : BotData := { codigos_validacao := [], pagamentos := [] }

/-- The channel chat a validation code is sent into. -/
def chat₀ : ChatInfo := { id := -100123, title := "Meu Canal", type := "channel" }

/-- C4 (the code bug): `validar_codigo_canal` is a universal no-op — for
every time, table, chat and message text it returns the table unchanged and
sends nothing, because its `hasattr` guard on the dict-like `bot_data`
always fires.  In particular, redeeming the stored, unexpired code
`"ABC12345"` at time 10 creates no group link, notifies nobody, and leaves
the code in the table. -/
theorem validar_codigo_canal_never_redeems :
    (∀ (now : ℚ) (bd : BotData) (chat : ChatInfo) (text : String),
        validar_codigo_canal now bd chat text = (bd, [])) ∧
    validar_codigo_canal 10 bdCode chat₀ "ABC12345" = (bdCode, []) ∧
    bdCode.codigos_validacao.lookup "ABC12345" =
      some { user_id := 7, bot_id := 0, expira := 1000 } :=
  ⟨fun _ _ _ _ => rfl, rfl, by decide⟩

/-- C9 (the code bug): `gerar_codigo_canal` always replaces the whole
validation-code table with a fresh empty one (the `hasattr` guard never
holds), and then raises `NameError` at `time.time()` — `bot_handler.py`
never imports `time` — so the newly generated code is never stored: after
any call the table is empty, not a singleton.  Instantiated where two codes
issued to other users were stored. -/
theorem gerar_codigo_canal_wipes_then_raises :
    (∀ (bd : BotData) (ud : UserData) (uid : Int) (codigo : String),
        gerar_codigo_canal bd ud uid codigo =
          ({ bd with codigos_validacao := [] }, none)) ∧
    (gerar_codigo_canal bdCodes2 udIdle 42 "NEWCODE1").1.codigos_validacao = [] ∧
    (gerar_codigo_canal bdCodes2 udIdle 42 "NEWCODE1").2 = none :=
  ⟨fun _ _ _ _ => rfl, rfl, rfl⟩

/-- C10: `verificar_pagamento` reads the payment table through `getattr`
on the dict-like `bot_data`, hence always sees an empty mapping: for every
table state and callback data it leaves `bot_data` unchanged and answers
"not found" on every `check_payment_…` press.  In particular, immediately
after `processar_pagamento` stores the pending payment `TX1000`, verifying
`TX1000` still reports "not found" and the stored record stays
`"pending"`. -/
theorem verificar_pagamento_never_approves :
    (∀ (bd : BotData) (data : String),
        verificar_pagamento bd data =
          (bd, if pyStartswith data "check_payment_" = true
               then [.pagamentoNaoEncontrado] else [])) ∧
    (match processar_pagamento 1000 udIdle bdEmpty 42 "pagar_1" with
     | some r =>
         verificar_pagamento r.1 "check_payment_TX1000" =
           (r.1, [.pagamentoNaoEncontrado]) ∧
         r.1.pagamentos.map (fun p => (p.1, p.2.status)) = [("TX1000", "pending")]
     | none => False) := by
  constructor
  · intro bd data
    cases h : pyStartswith data "check_payment_" <;>
      simp [verificar_pagamento, getattrDict, h]
  · have hp : processar_pagamento 1000 udIdle bdEmpty 42 "pagar_1" =
        some ({ bdEmpty with pagamentos :=
          [("TX1000",
            { user_id := 42, plano_id := 1, valor := (199 / 10 : ℚ),
              status := "pending", created_at := 1000 })] },
          [.processandoPagamento, .pixGerado "TX1000"]) := by
      have h1 : pyStartswith "pagar_1" "pagar_" = true := by decide
      have h2 : pyInt ((pySplit "pagar_1" '_')[1]?.getD "") = some 1 := by decide
      have h3 : "TX" ++ toString (1000 : Int) = "TX1000" := by decide
      simp [processar_pagamento, h1, h2, udIdle, h3, bdEmpty]
    rw [hp]
    have h4 : pyStartswith "check_payment_TX1000" "check_payment_" = true := by
      decide
    constructor
    · simp [verificar_pagamento, getattrDict, h4]
    · rfl

/-! ## C6: the price parser -/

/-- C6: with the session at `plan_price` and a scratch plan present, the
handler accepts any text whose comma-to-dot normalisation parses as a
decimal with positive value — storing that exact value and advancing to
`plan_duration` — and rejects a failed parse or a value `≤ 0` by
re-prompting with the state unchanged (so still at `plan_price`).  In
particular `"19.90"` and `"19,90"` both yield `199/10` and `"0"`, `"-5"`,
`"abc"` are rejected. -/
theorem processar_preco_plano_spec (ud : UserData) (np : NewPlan)
    (hw : ud.waiting_for = some "plan_price") (hn : ud.new_plan = some np) :
    (∀ text v, pyFloat (pyReplaceChar text ',' '.') = some v → 0 < v →
      processar_preco_plano ud text =
        some ({ ud with new_plan := some { np with preco := some v },
                        waiting_for := some "plan_duration" },
              [.askPlanDuration])) ∧
    (∀ text, pyFloat (pyReplaceChar text ',' '.') = none →
      processar_preco_plano ud text = some (ud, [.invalidPrice])) ∧
    (∀ text v, pyFloat (pyReplaceChar text ',' '.') = some v → v ≤ 0 →
      processar_preco_plano ud text = some (ud, [.invalidPrice])) ∧
    pyFloat (pyReplaceChar "19.90" ',' '.') = some (199 / 10 : ℚ) ∧
    pyFloat (pyReplaceChar "19,90" ',' '.') = some (199 / 10 : ℚ) ∧
    processar_preco_plano ud "19.90" =
      some ({ ud with new_plan := some { np with preco := some (199 / 10 : ℚ) },
                      waiting_for := some "plan_duration" },
            [.askPlanDuration]) ∧
    processar_preco_plano ud "19,90" =
      some ({ ud with new_plan := some { np with preco := some (199 / 10 : ℚ) },
                      waiting_for := some "plan_duration" },
            [.askPlanDuration]) ∧
    processar_preco_plano ud "0" = some (ud, [.invalidPrice]) ∧
    processar_preco_plano ud "-5" = some (ud, [.invalidPrice]) ∧
    processar_preco_plano ud "abc" = some (ud, [.invalidPrice]) := by
  have haccept : ∀ text v, pyFloat (pyReplaceChar text ',' '.') = some v →
      0 < v → processar_preco_plano ud text =
        some ({ ud with new_plan := some { np with preco := some v },
                        waiting_for := some "plan_duration" },
              [.askPlanDuration]) := by
    intro text v hv hvpos
    have hnle : ¬ v ≤ 0 := not_le.mpr hvpos
    simp [processar_preco_plano, hw, hn, hv, hnle]
  have hrejFail : ∀ text, pyFloat (pyReplaceChar text ',' '.') = none →
      processar_preco_plano ud text = some (ud, [.invalidPrice]) := by
    intro text hv
    simp [processar_preco_plano, hw, hv]
  have hrejNeg : ∀ text v, pyFloat (pyReplaceChar text ',' '.') = some v →
      v ≤ 0 → processar_preco_plano ud text = some (ud, [.invalidPrice]) := by
    intro text v hv hvle
    simp [processar_preco_plano, hw, hv, hvle]
  have e1 : pyFloatParse (pyReplaceChar "19.90" ',' '.') =
      some (false, 19, 90, 2) := by decide
  have e2 : pyFloatParse (pyReplaceChar "19,90" ',' '.') =
      some (false, 19, 90, 2) := by decide
  have ev : pyFloatVal (false, 19, 90, 2) = (199 / 10 : ℚ) := by
    norm_num [pyFloatVal]
  have p1 : pyFloat (pyReplaceChar "19.90" ',' '.') = some (199 / 10 : ℚ) := by
    rw [pyFloat, e1, Option.map_some', ev]
  have p2 : pyFloat (pyReplaceChar "19,90" ',' '.') = some (199 / 10 : ℚ) := by
    rw [pyFloat, e2, Option.map_some', ev]
  have z0 : pyFloatParse (pyReplaceChar "0" ',' '.') = some (false, 0, 0, 0) := by
    decide
  have pz : pyFloat (pyReplaceChar "0" ',' '.') = some (0 : ℚ) := by
    rw [pyFloat, z0, Option.map_some']
    norm_num [pyFloatVal]
  have n5 : pyFloatParse (pyReplaceChar "-5" ',' '.') = some (true, 5, 0, 0) := by
    decide
  have pn : pyFloat (pyReplaceChar "-5" ',' '.') = some (-5 : ℚ) := by
    rw [pyFloat, n5, Option.map_some']
    norm_num [pyFloatVal]
  have pa : pyFloat (pyReplaceChar "abc" ',' '.') = none := by decide
  refine ⟨haccept, hrejFail, hrejNeg, p1, p2, ?_, ?_, ?_, ?_, ?_⟩
  · exact haccept "19.90" (199 / 10 : ℚ) p1 (by norm_num)
  · exact haccept "19,90" (199 / 10 : ℚ) p2 (by norm_num)
  · exact hrejNeg "0" 0 pz (by norm_num)
  · exact hrejNeg "-5" (-5) pn (by norm_num)
  · exact hrejFail "abc" pa

/-- A session at the price step with the scratch plan `{nome := "Mensal"}`. -/
def udPrice : UserData :=
  { waiting_for := some "plan_price",
    new_plan := some { id := none, nome := some "Mensal", preco := none,
                       duracao := none },
    planos := [], bot_username := none, bot_id := none }

/-- Witness for C6: a concrete session at `plan_price` with the scratch
plan `{nome := "Mensal"}`, on the inputs the claim names. -/
theorem processar_preco_plano_spec_witness :
    processar_preco_plano udPrice "19,90" =
      some ({ udPrice with
                new_plan := some { id := none, nome := some "Mensal",
                                   preco := some (199 / 10 : ℚ), duracao := none },
                waiting_for := some "plan_duration" },
            [.askPlanDuration]) ∧
    processar_preco_plano udPrice "abc" = some (udPrice, [.invalidPrice]) :=
  ⟨(processar_preco_plano_spec udPrice
      { id := none, nome := some "Mensal", preco := none, duracao := none }
      rfl rfl).2.2.2.2.2.2.1,
   (processar_preco_plano_spec udPrice
      { id := none, nome := some "Mensal", preco := none, duracao := none }
      rfl rfl).2.2.2.2.2.2.2.2.2⟩

/-! ## C7: the bot-token validator -/

/-- Lemma: `takeWhile`/`dropWhile` across a block of satisfying characters that
ends at a failing character (or at the end of the list). -/
theorem takeWhile_app_block (p : Char → Bool) (ds rest : List Char)
    (h : ∀ c ∈ ds, p c = true)
    (h2 : ∀ c, rest.head? = some c → p c = false) :
    (ds ++ rest).takeWhile p = ds ∧ (ds ++ rest).dropWhile p = rest := by
  induction ds with
  | nil =>
      cases rest with
      | nil => exact ⟨rfl, rfl⟩
      | cons c t =>
          have hc := h2 c rfl
          constructor <;> simp [List.takeWhile_cons, List.dropWhile_cons, hc]
  | cons c ds ih =>
      have hc := h c (by simp)
      have ih2 := ih (fun x hx => h x (by simp [hx]))
      constructor <;>
        simp [List.takeWhile_cons, List.dropWhile_cons, hc, ih2.1, ih2.2]

/-- The executable matcher agrees with the decomposition predicate. -/
theorem matchTok_iff (cs : List Char) : matchTok cs = true ↔ tokenChars cs := by
  constructor
  · intro h
    unfold matchTok at h
    split at h
    case h_1 suffix heq =>
        simp only [Bool.and_eq_true, beq_iff_eq, Bool.not_eq_true',
          List.isEmpty_eq_false, List.all_eq_true] at h
        refine ⟨cs.takeWhile Char.isDigit, suffix, ?_, h.1.1, ?_, h.1.2, h.2⟩
        · conv_lhs => rw [← List.takeWhile_append_dropWhile (p := Char.isDigit) (l := cs)]
          rw [heq]
        · intro c hc
          exact List.mem_takeWhile_imp hc
    case h_2 => exact absurd h (by simp)
  · rintro ⟨ds, suffix, hcs, hne, hdig, hlen, hcls⟩
    have hblock := takeWhile_app_block Char.isDigit ds (':' :: suffix) hdig
      (fun c hc => by
        simp only [List.head?_cons, Option.some_inj] at hc
        rw [← hc]; decide)
    rw [hcs]
    unfold matchTok
    rw [hblock.2]
    simp only [hblock.1, List.isEmpty_eq_false, Bool.and_eq_true,
      Bool.not_eq_true', beq_iff_eq, List.all_eq_true]
    exact ⟨⟨by simpa using hne, hlen⟩, hcls⟩

/-- Characterisation: `is_valid_bot_token` characterised: it accepts exactly the strings of
the token format, plus — Python `$` semantics — such a string followed by
one final newline. -/
theorem is_valid_iff_tokenFormat (s : String) :
    is_valid_bot_token s = true ↔
      (specTokenFormat s ∨
        ∃ t : List Char, tokenChars t ∧ s.toList = t ++ ['\n']) := by
  unfold is_valid_bot_token specTokenFormat
  rw [Bool.or_eq_true, Bool.and_eq_true]
  constructor
  · rintro (h | ⟨hlast, hdrop⟩)
    · exact Or.inl ((matchTok_iff _).mp h)
    · refine Or.inr ⟨s.toList.dropLast, (matchTok_iff _).mp hdrop, ?_⟩
      have hl : s.toList.getLast? = some '\n' := by
        exact beq_iff_eq.mp hlast
      have hne : s.toList ≠ [] := by
        intro h0
        rw [h0] at hl
        exact absurd hl (by simp)
      conv_lhs => rw [← List.dropLast_append_getLast hne]
      have hg : s.toList.getLast hne = '\n' := by
        have := List.getLast?_eq_getLast s.toList hne
        rw [this] at hl
        exact Option.some_inj.mp hl
      rw [hg]
  · rintro (h | ⟨t, ht, hst⟩)
    · exact Or.inl ((matchTok_iff _).mpr h)
    · refine Or.inr ⟨?_, ?_⟩
      · rw [hst]
        simp
      · rw [hst, List.dropLast_concat]
        exact (matchTok_iff _).mpr ht

/-- C7 counterexample: the spec's "accepted" literal
`"123456789:ABCDefGhIJKlmNoPQRsTUVwxyZ"` is in fact rejected — the part
after the colon has 26 characters, not the 35 the pattern requires. -/
theorem token_literal_counterexample :
    is_valid_bot_token "123456789:ABCDefGhIJKlmNoPQRsTUVwxyZ" = false ∧
    ("123456789:ABCDefGhIJKlmNoPQRsTUVwxyZ".toList.drop 10).length = 26 := by
  refine ⟨by decide, by decide⟩

/-- C7 amended: the validator accepts exactly the strings matching
`^\d+:[A-Za-z0-9_-]{35}$` (together with, per Python `re` `$` semantics,
such a string followed by a single trailing newline); it rejects
`"123:short"` and `"abc:ABCDefGhIJKlmNoPQRsTUVwxyZ..."` as the claim says,
and also rejects `"123456789:ABCDefGhIJKlmNoPQRsTUVwxyZ"` (26-character
suffix), while accepting a true 35-character-suffix token. -/
theorem is_valid_bot_token_spec :
    (∀ s : String, is_valid_bot_token s = true ↔
        (specTokenFormat s ∨
          ∃ t : List Char, tokenChars t ∧ s.toList = t ++ ['\n'])) ∧
    is_valid_bot_token "123:short" = false ∧
    is_valid_bot_token "abc:ABCDefGhIJKlmNoPQRsTUVwxyZ..." = false ∧
    is_valid_bot_token "123456789:ABCDefGhIJKlmNoPQRsTUVwxyZ" = false ∧
    is_valid_bot_token validTok = true :=
  ⟨is_valid_iff_tokenFormat, by decide, by decide, by decide, by decide⟩

end Zenyx
